import Mathlib

/-
Verification of the version descriptor in
src/nanorpc/include/nanorpc/version/library.h.

The header defines, inside namespace nanorpc::version::library, a struct
version with four static constexpr noexcept accessors:
  major()          returns 1
  minor()          returns 1
  patch()          returns 1
  get_as_string()  returns the string literal "1.1.1"
Each body is a single unconditional return of a constant.
-/

namespace nanorpc.version.library.version

/-- Embedding of version::major. The C++ body is a single return 1. -/
def major : Int := 1

/-- Embedding of version::minor. The C++ body is a single return 1. -/
def minor : Int := 1

/-- Embedding of version::patch. The C++ body is a single return 1. -/
def patch : Int := 1

/-- Embedding of version::get_as_string. The C++ body returns the string
literal "1.1.1". -/
def get_as_string : String := "1.1.1"

/-- The char const pointer returned by get_as_string, modelled as an optional
string in which none stands for the null pointer. The source returns the
address of the string literal "1.1.1", which is never null. -/
def get_as_string_ptr : Option String := some "1.1.1"

end nanorpc.version.library.version

namespace nanorpc.version.library

/-- Names of the four accessors of struct version. -/
inductive Accessor : Type
| major : Accessor
| minor : Accessor
| patch : Accessor
| get_as_string : Accessor
deriving DecidableEq, Repr

/-- The value an accessor returns, as a sum of the two result types
(int for the three numeric accessors, the string for get_as_string). -/
def accessorValue : Accessor → Int ⊕ String
| Accessor.major => Sum.inl version.major
| Accessor.minor => Sum.inl version.minor
| Accessor.patch => Sum.inl version.patch
| Accessor.get_as_string => Sum.inr version.get_as_string

/-- One accessor call with explicit state passing over an arbitrary ambient
program state σ. Each C++ body is a single return of a constant and touches
no state, so every branch threads the state through unchanged and returns
the constant of the corresponding source body. -/
def runAccessor {σ : Type} (a : Accessor) (s : σ) : (Int ⊕ String) × σ :=
match a with
| Accessor.major => (Sum.inl version.major, s)
| Accessor.minor => (Sum.inl version.minor, s)
| Accessor.patch => (Sum.inl version.patch, s)
| Accessor.get_as_string => (Sum.inr version.get_as_string, s)

/-- Each accessor call with an explicit exception channel: a noexcept C++
function either returns a value (ok) or the program aborts (error). Every
source body is a single unconditional return with no throw and no failing
subexpression, so the embedding has no error-producing branch. -/
def runAccessorE {σ : Type} (a : Accessor) (s : σ) :
    Except String ((Int ⊕ String) × σ) :=
match a with
| Accessor.major => Except.ok (Sum.inl version.major, s)
| Accessor.minor => Except.ok (Sum.inl version.minor, s)
| Accessor.patch => Except.ok (Sum.inl version.patch, s)
| Accessor.get_as_string => Except.ok (Sum.inr version.get_as_string, s)

/-- Sequential execution of an interleaved schedule of accessor calls.
Each schedule entry pairs a caller identifier with the accessor that caller
invokes; calls run one after another in schedule order, each receiving the
state left by the previous call, and each result is recorded with its
caller. This models an arbitrary interleaving of any number of callers. -/
def runSchedule {σ : Type} (sched : List (Nat × Accessor)) (s : σ) :
    List (Nat × (Int ⊕ String)) × σ :=
match sched with
| [] => ([], s)
| (c, a) :: rest =>
    let p := runAccessor a s
    let q := runSchedule rest p.2
    ((c, p.1) :: q.1, q.2)

end nanorpc.version.library

namespace nanorpc.version.library

/-- Helper: a single accessor call returns the accessor value and leaves the
state unchanged, for every state. -/
theorem runAccessor_eq {σ : Type} (a : Accessor) (s : σ) :
    runAccessor a s = (accessorValue a, s) := by
  cases a <;> rfl

/-- Helper: running any schedule from any state returns, for each entry, the
caller paired with the value determined by the accessor alone, and leaves
the state unchanged. -/
theorem runSchedule_eq {σ : Type} (sched : List (Nat × Accessor)) (s : σ) :
    runSchedule sched s =
      (sched.map (fun p => (p.1, accessorValue p.2)), s) := by
  induction sched generalizing s with
  | nil => rfl
  | cons hd tl ih =>
      obtain ⟨c, a⟩ := hd
      simp [runSchedule, runAccessor_eq, ih]

/-- C1: the string returned by get_as_string equals the decimal rendering of
major, followed by a dot, the decimal rendering of minor, a dot, and the
decimal rendering of patch, with no other characters. -/
theorem c1_string_numeric_consistency :
    version.get_as_string =
      toString version.major ++ "." ++ toString version.minor ++ "." ++
        toString version.patch := by
  rfl

/-- C2: get_as_string returns exactly the string "1.1.1". -/
theorem c2_get_as_string_value : version.get_as_string = "1.1.1" := rfl

/-- C3: major returns 1, minor returns 1 and patch returns 1; by
runAccessor_eq these are the only values the three accessors ever return. -/
theorem c3_numeric_values :
    version.major = 1 ∧ version.minor = 1 ∧ version.patch = 1 :=
  ⟨rfl, rfl, rfl⟩

/-- C4: every accessor is deterministic and idempotent: two invocations of
the same accessor, from any ambient states, after any two prior interleaved
call histories by any callers, return identical results. -/
theorem c4_determinism_idempotence (σ₁ σ₂ : Type) (s₁ : σ₁) (s₂ : σ₂)
    (pre₁ : List (Nat × Accessor)) (pre₂ : List (Nat × Accessor))
    (a : Accessor) :
    (runAccessor a (runSchedule pre₁ s₁).2).1 =
      (runAccessor a (runSchedule pre₂ s₂).2).1 := by
  rw [runSchedule_eq, runSchedule_eq, runAccessor_eq, runAccessor_eq]

/-- C5: no accessor can fail: with an explicit exception channel, every
call from every state returns ok, never error. -/
theorem c5_total_no_failure (σ : Type) (a : Accessor) (s : σ) :
    runAccessorE a s = Except.ok (accessorValue a, s) := by
  cases a <;> rfl

/-- C6: the three numeric accessors are all non-negative. -/
theorem c6_nonnegative :
    0 ≤ version.major ∧ 0 ≤ version.minor ∧ 0 ≤ version.patch := by
  refine ⟨?_, ?_, ?_⟩ <;> decide

/-- C7: all four accessors are side-effect-free reads: any number of calls,
in any order by any callers, leaves the ambient program state unchanged. -/
theorem c7_no_side_effects (σ : Type) (sched : List (Nat × Accessor))
    (s : σ) : (runSchedule sched s).2 = s := by
  rw [runSchedule_eq]

/-- C8: under any interleaving of accessor calls by any number of callers,
no call writes the shared state (so the embedding has no data race) and
every caller invoking a given accessor receives the identical result,
determined by the accessor alone. -/
theorem c8_concurrent_interleavings (σ : Type)
    (sched : List (Nat × Accessor)) (s : σ) :
    (runSchedule sched s).2 = s ∧
      (runSchedule sched s).1 =
        sched.map (fun p => (p.1, accessorValue p.2)) := by
  rw [runSchedule_eq]
  exact ⟨rfl, rfl⟩

/-- C9: get_as_string returns a non-null pointer to a non-empty string of
length exactly 5, namely the string returned by the accessor itself. -/
theorem c9_nonnull_nonempty :
    version.get_as_string_ptr = some version.get_as_string ∧
      version.get_as_string.length = 5 ∧ version.get_as_string ≠ "" := by
  refine ⟨rfl, ?_, ?_⟩ <;> decide

/-- C10: the three numeric accessors are strictly positive, so the version
0.0.0 is impossible. -/
theorem c10_strictly_positive :
    0 < version.major ∧ 0 < version.minor ∧ 0 < version.patch := by
  refine ⟨?_, ?_, ?_⟩ <;> decide

end nanorpc.version.library
